import Mathlib

/-!
Verification development for the anomaly-detection module of the
WomenIA-hackathon-2026 repository (file `limpieza y  modelado/anomalias.py`).

The module has two paths:
  * a batch path that, per hour-of-day group, computes robust z-scores
    (median / IQR), a weighted composite score, a log1p compression, a
    percentile rank inside the group and a severity tier;
  * an event path (`detectar_anomalia_evento`) that scores one candidate
    reading against the historical readings sharing its hour.

Python floats are modelled by exact rationals `ℚ`; the float value NaN,
which the batch path manufactures by `(q75 - q25).replace(0, np.nan)` and
which may enter the event path through a candidate value, is modelled
explicitly by the `PyFloat` type below.  `np.log1p` is modelled by
`Real.log (1 + ·)`.
-/

namespace Anomalias

/-- One row of the historical table `df_global` / `df_ref`.  Only the
columns the anomaly module reads are modelled: `hora` plus the three
signals `consumo_kwh`, `agua_litros`, `co2_kg`. -/
structure Reading where
  hora : ℤ
  consumo_kwh : ℚ
  agua_litros : ℚ
  co2_kg : ℚ
deriving DecidableEq, Repr

/-- A Python float: either an actual (exactly represented) number or NaN.
Arithmetic propagates NaN; every ordered comparison involving NaN is
false, as in IEEE-754. -/
inductive PyFloat where
  | num (q : ℚ)
  | nan
deriving DecidableEq, Repr

namespace PyFloat

def add : PyFloat → PyFloat → PyFloat
  | num a, num b => num (a + b)
  | _, _ => nan

def sub : PyFloat → PyFloat → PyFloat
  | num a, num b => num (a - b)
  | _, _ => nan

def mul : PyFloat → PyFloat → PyFloat
  | num a, num b => num (a * b)
  | _, _ => nan

/-- Division.  Every denominator produced by the module is of the form
`iqr + 1e-6` with `iqr ≥ 0`, hence nonzero, so the `ℚ` junk value at a
zero denominator is never reached. -/
def div : PyFloat → PyFloat → PyFloat
  | num a, num b => num (a / b)
  | _, _ => nan

def abs : PyFloat → PyFloat
  | num a => num |a|
  | nan => nan

/-- IEEE comparison: any comparison with NaN is false. -/
def lt : PyFloat → PyFloat → Bool
  | num a, num b => decide (a < b)
  | _, _ => false

end PyFloat

/-- Sorted copy of a list of rationals, as pandas sorts a numeric series. -/
def sortQ (l : List ℚ) : List ℚ :=
  l.mergeSort (fun a b => decide (a ≤ b))

/-- Model of `Series.quantile q` with the pandas default linear interpolation: on the
sorted values `s` of length `n`, the quantile sits at virtual position
`h = q * (n - 1)`; the result interpolates between the values at
`⌊h⌋` and `⌈h⌉`.  `Series.median()` is exactly the `q = 1/2` case
(middle element for odd `n`, mean of the two middle elements for even
`n`). -/
def quantile (l : List ℚ) (q : ℚ) : ℚ :=
  let s := sortQ l
  if s.length = 0 then 0
  else
    let h : ℚ := q * ((s.length : ℚ) - 1)
    let lo : ℕ := (Int.floor h).toNat
    let hi : ℕ := (Int.ceil h).toNat
    let xlo := s.getD lo 0
    let xhi := s.getD hi 0
    xlo + (h - (lo : ℚ)) * (xhi - xlo)

/-- Model of `Series.median()`, i.e. the linearly interpolated 0.5 quantile. -/
def median (l : List ℚ) : ℚ :=
  quantile l (1/2)

/-- Round to the nearest integer, ties to even — the rounding rule of
the Python `round` builtin. -/
def roundHalfEven {α : Type} [LinearOrderedField α] [FloorRing α] (y : α) : ℤ :=
  if y - (Int.floor y : α) < 1/2 then Int.floor y
  else if 1/2 < y - (Int.floor y : α) then Int.floor y + 1
  else if Int.floor y % 2 = 0 then Int.floor y else Int.floor y + 1

/-- The Python `round(x, 2)` (round half to even at the second decimal),
on exact rationals. -/
def round2 (x : ℚ) : ℚ :=
  (roundHalfEven (x * 100) : ℚ) / 100

/-- The Python `round(x, 2)` on a real number (used on the log-compressed
score, which is irrational in general). -/
noncomputable def round2R (x : ℝ) : ℝ :=
  (roundHalfEven (x * 100) : ℝ) / 100

/-- The result dictionary of `detectar_anomalia_evento`.  The Python
function returns a dict whose key set depends on the branch taken, so
every field is an `Option`; `none` models an absent key.  The dict entry
`"score"` holds `round(np.log1p(score_raw), 2)`; since that value
is irrational in general, the structure carries the exact pre-log
`score_raw` and the reported score is recovered by `ResultDict.score`
below.  `σ` is the type of that raw score (`ℚ` for the exact evaluator,
`PyFloat` for the dynamically-typed one). -/
structure ResultDict (σ : Type) where
  timestamp : Option String
  nivel : Option String
  percentil : Option ℚ
  score_raw : Option σ
  explicacion : Option (List String)
  mensaje : Option String
deriving DecidableEq, Repr

/-- The value stored under the `"score"` key: `round(np.log1p(score_raw), 2)`. -/
noncomputable def ResultDict.score (r : ResultDict ℚ) : Option ℝ :=
  r.score_raw.map (fun (s : ℚ) => round2R (Real.log (1 + ((s : ℚ) : ℝ))))

instance {ε α : Type} [DecidableEq ε] [DecidableEq α] : DecidableEq (Except ε α)
  | .error e, .error f =>
    if h : e = f then .isTrue (by rw [h]) else .isFalse (by simp [h])
  | .error _, .ok _ => .isFalse (by simp)
  | .ok _, .error _ => .isFalse (by simp)
  | .ok a, .ok b =>
    if h : a = b then .isTrue (by rw [h]) else .isFalse (by simp [h])

/-- The historical context: the rows of `df_ref` whose `hora` column
equals the queried hour. -/
def contextoDe (df_ref : List Reading) (hora : ℤ) : List Reading :=
  df_ref.filter (fun r => r.hora == hora)

/-- The inner helper `score_robusto(valor, serie)` of
`detectar_anomalia_evento`: robust z-score
`|valor - median| / (iqr + 1e-6)`. -/
def score_robusto (valor : ℚ) (serie : List ℚ) : ℚ :=
  let med := median serie
  let iqr := quantile serie (3/4) - quantile serie (1/4)
  |valor - med| / (iqr + 1e-6)

/-- The candidate weighted raw score
`score_raw = 0.4 * z_consumo + 0.35 * z_agua + 0.25 * z_co2`. -/
def score_raw_evento (contexto : List Reading) (consumo_kwh agua_litros co2_kg : ℚ) : ℚ :=
  let z_consumo := score_robusto consumo_kwh (contexto.map (fun r => r.consumo_kwh))
  let z_agua := score_robusto agua_litros (contexto.map (fun r => r.agua_litros))
  let z_co2 := score_robusto co2_kg (contexto.map (fun r => r.co2_kg))
  0.4 * z_consumo + 0.35 * z_agua + 0.25 * z_co2

/-- The vector `scores_hist`: for every historical row of the context,
the weighted raw score written exactly as in the source (the three
fractions expanded inline). -/
def scores_hist (contexto : List Reading) : List ℚ :=
  contexto.map (fun r =>
    0.4 * |r.consumo_kwh - median (contexto.map (fun s => s.consumo_kwh))| /
      (quantile (contexto.map (fun s => s.consumo_kwh)) (3/4) -
        quantile (contexto.map (fun s => s.consumo_kwh)) (1/4) + 1e-6)
    +
    0.35 * |r.agua_litros - median (contexto.map (fun s => s.agua_litros))| /
      (quantile (contexto.map (fun s => s.agua_litros)) (3/4) -
        quantile (contexto.map (fun s => s.agua_litros)) (1/4) + 1e-6)
    +
    0.25 * |r.co2_kg - median (contexto.map (fun s => s.co2_kg))| /
      (quantile (contexto.map (fun s => s.co2_kg)) (3/4) -
        quantile (contexto.map (fun s => s.co2_kg)) (1/4) + 1e-6))

/-- The percentile `(scores_hist < score_raw).mean()`: the mean of a boolean
series is the count of `True` divided by the series length. -/
def percentilEvento (contexto : List Reading) (score_raw : ℚ) : ℚ :=
  (((scores_hist contexto).countP (fun s => decide (s < score_raw)) : ℕ) : ℚ) /
    ((scores_hist contexto).length : ℚ)

/-- The inline event-path tier chain:
`if percentil < 0.90 ... elif percentil < 0.97 ... else ...`. -/
def nivelEvento (percentil : ℚ) : String :=
  if percentil < 0.90 then "Normal"
  else if percentil < 0.97 then "Alerta"
  else "Crítica"

/-- Cause attribution: one cause string per z-score exceeding 3, in source
order, with the combined-behaviour fallback when no single signal
exceeds the threshold. -/
def causasEvento (z_consumo z_agua z_co2 : ℚ) : List String :=
  let causas :=
    (if z_consumo > 3 then ["consumo energético inusualmente alto"] else []) ++
    (if z_agua > 3 then ["consumo de agua fuera de lo normal"] else []) ++
    (if z_co2 > 3 then ["emisiones de CO₂ elevadas"] else [])
  if causas = [] then ["comportamiento combinado atípico"] else causas

/-- The source function `detectar_anomalia_evento(df_ref, timestamp, hora, consumo_kwh,
agua_litros, co2_kg)` for numeric candidate values: filter the context,
return the insufficient-data dict below 50 rows, otherwise score,
rank, classify and explain. -/
def detectar_anomalia_evento (df_ref : List Reading) (timestamp : String) (hora : ℤ)
    (consumo_kwh agua_litros co2_kg : ℚ) : ResultDict ℚ :=
  let contexto := contextoDe df_ref hora
  if contexto.length < 50 then
    ⟨none, some "Normal", none, none, none,
      some "No hay suficientes datos históricos para evaluar anomalías."⟩
  else
    let z_consumo := score_robusto consumo_kwh (contexto.map (fun r => r.consumo_kwh))
    let z_agua := score_robusto agua_litros (contexto.map (fun r => r.agua_litros))
    let z_co2 := score_robusto co2_kg (contexto.map (fun r => r.co2_kg))
    let score_raw := 0.4 * z_consumo + 0.35 * z_agua + 0.25 * z_co2
    let percentil := percentilEvento contexto score_raw
    let nivel := nivelEvento percentil
    let causas := causasEvento z_consumo z_agua z_co2
    ⟨some timestamp, some nivel, some (round2 (percentil * 100)), some score_raw,
      some causas, none⟩

/-- A value a Python caller may actually pass for a candidate signal:
a float (possibly NaN) or `None`. -/
inductive PyVal where
  | float (f : PyFloat)
  | pynone
deriving DecidableEq, Repr

/-- Subtraction of a numeric median from a candidate value, with Python
dynamic typing: `None - float` raises a `TypeError`; `nan - float` is
`nan`. -/
def PyVal.subQ : PyVal → ℚ → Except String PyFloat
  | .float f, m => .ok (f.sub (.num m))
  | .pynone, _ => .error "TypeError: unsupported operand type(s) for -"

/-- Helper `score_robusto` on a dynamically-typed candidate value: the
subtraction may raise, after which NaN simply propagates through
`abs` and the division. -/
def score_robustoPy (valor : PyVal) (serie : List ℚ) : Except String PyFloat := do
  let med := median serie
  let iqr := quantile serie (3/4) - quantile serie (1/4)
  let d ← valor.subQ med
  return d.abs.div (.num (iqr + 1e-6))

/-- Causes over possibly-NaN z-scores: `z > 3` is an IEEE comparison, so
it is false whenever `z` is NaN. -/
def causasEventoPy (z_consumo z_agua z_co2 : PyFloat) : List String :=
  let causas :=
    (if (PyFloat.num 3).lt z_consumo then ["consumo energético inusualmente alto"] else []) ++
    (if (PyFloat.num 3).lt z_agua then ["consumo de agua fuera de lo normal"] else []) ++
    (if (PyFloat.num 3).lt z_co2 then ["emisiones de CO₂ elevadas"] else [])
  if causas = [] then ["comportamiento combinado atípico"] else causas

/-- The function `detectar_anomalia_evento` as Python executes it on dynamically-typed
candidate values.  The historical table itself is numeric.  A `None`
signal raises a `TypeError` from inside `score_robusto`; a NaN signal
propagates: the weighted sum is NaN, `(scores_hist < nan).mean()` is `0`
because every comparison with NaN is false, and no cause threshold
fires. -/
def detectar_anomalia_eventoPy (df_ref : List Reading) (timestamp : String) (hora : ℤ)
    (consumo_kwh agua_litros co2_kg : PyVal) : Except String (ResultDict PyFloat) :=
  let contexto := contextoDe df_ref hora
  if contexto.length < 50 then
    .ok ⟨none, some "Normal", none, none, none,
      some "No hay suficientes datos históricos para evaluar anomalías."⟩
  else do
    let z_consumo ← score_robustoPy consumo_kwh (contexto.map (fun r => r.consumo_kwh))
    let z_agua ← score_robustoPy agua_litros (contexto.map (fun r => r.agua_litros))
    let z_co2 ← score_robustoPy co2_kg (contexto.map (fun r => r.co2_kg))
    let score_raw := (((PyFloat.num 0.4).mul z_consumo).add
      ((PyFloat.num 0.35).mul z_agua)).add ((PyFloat.num 0.25).mul z_co2)
    let percentil : ℚ :=
      (((scores_hist contexto).countP (fun s => (PyFloat.num s).lt score_raw) : ℕ) : ℚ) /
        ((scores_hist contexto).length : ℚ)
    let nivel := nivelEvento percentil
    let causas := causasEventoPy z_consumo z_agua z_co2
    return ⟨some timestamp, some nivel, some (round2 (percentil * 100)), some score_raw,
      some causas, none⟩

/-- Dict key lookup.  A missing key is a
`KeyError`, as in Python. -/
def getKey {α : Type} (o : Option α) (k : String) : Except String α :=
  match o with
  | some v => .ok v
  | none => .error ("KeyError: " ++ k)

/-- The source function `respuesta_chatbot(resultado)`: the f-string for the Normal tier
interpolates the `timestamp` entry of `resultado`, the other two tiers also
interpolate the causes and the percentile.  Key accesses that the
Python f-strings perform are made explicit, so the function is partial
over result dicts exactly where Python raises `KeyError`. -/
def respuesta_chatbot {σ : Type} (resultado : ResultDict σ) : Except String String := do
  let nivel ← getKey resultado.nivel "nivel"
  if nivel = "Normal" then do
    let ts ← getKey resultado.timestamp "timestamp"
    return "✅ El consumo registrado a las " ++ ts ++
      " se encuentra dentro de los valores normales para esa hora."
  else do
    let expl ← getKey resultado.explicacion "explicacion"
    let causas := String.intercalate ", " expl
    let ts ← getKey resultado.timestamp "timestamp"
    let pct ← getKey resultado.percentil "percentil"
    if nivel = "Alerta" then
      return "⚠️ Atención: el evento de las " ++ ts ++
        " presenta un comportamiento inusual (" ++ causas ++
        "). Se encuentra en el percentil " ++ toString pct ++ "."
    else
      return "🚨 ALERTA CRÍTICA - El evento registrado a las " ++ ts ++
        " es altamente anómalo. Motivos detectados: " ++ causas ++
        ". Nivel de severidad: percentil " ++ toString pct ++ "."

/-- The hour group of a batch row: the `hora` groupby restricted to the
group a given row belongs to. -/
def grupoHora (df : List Reading) (h : ℤ) : List Reading :=
  df.filter (fun r => r.hora == h)

/-- The batch robust z-score of one row for one signal (`sel` selects the
column).  The source first replaces a zero IQR by NaN —
`iqr = (q75 - q25).replace(0, np.nan)` — and only then adds `1e-6`, so a
degenerate group yields a NaN z-score rather than a large finite one. -/
def zBatch (df : List Reading) (sel : Reading → ℚ) (row : Reading) : PyFloat :=
  let g := (grupoHora df row.hora).map sel
  let mediana := median g
  let iqrRaw := quantile g (3/4) - quantile g (1/4)
  let iqr : PyFloat := if iqrRaw = 0 then .nan else .num iqrRaw
  (PyFloat.num |sel row - mediana|).div (iqr.add (.num 1e-6))

/-- The batch composite `anomalia_score_raw = 0.4*z_kwh + 0.35*z_agua +
0.25*z_co2`, with NaN propagating through the weighted sum. -/
def anomalia_score_raw (df : List Reading) (row : Reading) : PyFloat :=
  (((PyFloat.num 0.4).mul (zBatch df (fun r => r.consumo_kwh) row)).add
    ((PyFloat.num 0.35).mul (zBatch df (fun r => r.agua_litros) row))).add
    ((PyFloat.num 0.25).mul (zBatch df (fun r => r.co2_kg) row))

/-- Model of `np.log1p` on a Python float: NaN maps to NaN (here `none`), a number
maps to the real `log (1 + x)`. -/
noncomputable def log1pPy : PyFloat → Option ℝ
  | .nan => none
  | .num q => some (Real.log (1 + (q : ℝ)))

/-- The batch column `anomalia_score = np.log1p(anomalia_score_raw)`. -/
noncomputable def anomalia_score (df : List Reading) (row : Reading) : Option ℝ :=
  log1pPy (anomalia_score_raw df row)

/-- Pandas `rank(pct=True)` with the defaults method average and
na_option keep: a NaN entry keeps rank NaN; a numeric entry gets
`(count of smaller + (count of equal + 1)/2) / (count of non-NaN)`. -/
noncomputable def rankPct (s : List (Option ℝ)) (x : Option ℝ) : Option ℝ :=
  match x with
  | none => none
  | some v =>
    let valid := s.filterMap id
    some (((valid.countP (fun w => decide (w < v)) : ℝ) +
      ((valid.countP (fun w => decide (w = v)) : ℝ) + 1) / 2) / (valid.length : ℝ))

/-- The batch column `anomalia_percentil`: percentile rank of each row and its
`anomalia_score` within its hour group. -/
noncomputable def anomalia_percentil (df : List Reading) (row : Reading) : Option ℝ :=
  rankPct ((grupoHora df row.hora).map (anomalia_score df)) (anomalia_score df row)

/-- IEEE `<` against a constant for a possibly-NaN float percentile. -/
noncomputable def pyLtO (x : Option ℝ) (c : ℝ) : Bool :=
  match x with
  | none => false
  | some v => decide (v < c)

/-- The source function `clasificar_anomalia(p)` as Python executes it on the float percentile
column, which may contain NaN: `if p < 0.90 ... elif p < 0.97 ...
else Crítica`, where a comparison with NaN is false. -/
noncomputable def clasificar_anomalia (p : Option ℝ) : String :=
  if pyLtO p 0.90 then "Normal"
  else if pyLtO p 0.97 then "Alerta"
  else "Crítica"

/-- The batch column `nivel_anomalia`. -/
noncomputable def nivel_anomalia (df : List Reading) (row : Reading) : String :=
  clasificar_anomalia (anomalia_percentil df row)

/-- Modelled from the spec, section 4.1: the robust per-signal deviation
`|v - median| / (Q75 - Q25 + 1e-6)`, to be compared with the source
function `score_robusto`. -/
def deviationSpec (v : ℚ) (S : List ℚ) : ℚ :=
  |v - median S| / (quantile S (3/4) - quantile S (1/4) + 1e-6)

/-- Modelled from the spec, section 4.2: the composite raw score
`0.40 * deviation_energy + 0.35 * deviation_water + 0.25 * deviation_co2`
of a candidate against its context, to be compared with the source
value `score_raw`. -/
def raw_scoreSpec (contexto : List Reading) (consumo_kwh agua_litros co2_kg : ℚ) : ℚ :=
  0.40 * deviationSpec consumo_kwh (contexto.map (fun r => r.consumo_kwh)) +
  0.35 * deviationSpec agua_litros (contexto.map (fun r => r.agua_litros)) +
  0.25 * deviationSpec co2_kg (contexto.map (fun r => r.co2_kg))

/-- Test fixture: 50 identical readings at hour 12. -/
def dfRef50 : List Reading :=
  List.replicate 50 ⟨12, 5, 7, 9⟩

/-- Test fixture: only 49 readings at hour 12 (one short of the minimum). -/
def dfRef49 : List Reading :=
  List.replicate 49 ⟨12, 5, 7, 9⟩

/-- Test fixture for the batch path: an hour-3 group whose `consumo_kwh`
values are `[10, 10, 10, 10, 10, 20]`, a population with IQR 0 whose
last value differs from the median. -/
def dfIqr0 : List Reading :=
  List.replicate 5 ⟨3, 10, 1, 2⟩ ++ [⟨3, 20, 1, 2⟩]

/-- The row of `dfIqr0` whose `consumo_kwh` differs from the group median. -/
def rowIqr0 : Reading :=
  ⟨3, 20, 1, 2⟩

/-! ## Helper lemmas -/

theorem PyFloat.nan_add (x : PyFloat) : PyFloat.add .nan x = .nan := by
  cases x <;> rfl

theorem PyFloat.add_nan (x : PyFloat) : PyFloat.add x .nan = .nan := by
  cases x <;> rfl

theorem PyFloat.num_mul_nan (q : ℚ) : PyFloat.mul (.num q) .nan = .nan := rfl

theorem PyFloat.div_nan (x : PyFloat) : PyFloat.div x .nan = .nan := by
  cases x <;> rfl

theorem PyFloat.lt_nan (x : PyFloat) : PyFloat.lt x .nan = false := by
  cases x <;> rfl

theorem PyFloat.nan_lt (x : PyFloat) : PyFloat.lt .nan x = false := by
  cases x <;> rfl

theorem roundHalfEven_zero {α : Type} [LinearOrderedField α] [FloorRing α] :
    roundHalfEven (0 : α) = 0 := by
  unfold roundHalfEven
  norm_num

theorem floor_le_roundHalfEven {α : Type} [LinearOrderedField α] [FloorRing α] (y : α) :
    Int.floor y ≤ roundHalfEven y := by
  unfold roundHalfEven
  split_ifs <;> omega

theorem roundHalfEven_le_floor_add_one {α : Type} [LinearOrderedField α] [FloorRing α] (y : α) :
    roundHalfEven y ≤ Int.floor y + 1 := by
  unfold roundHalfEven
  split_ifs <;> omega

theorem roundHalfEven_mono {α : Type} [LinearOrderedField α] [FloorRing α]
    {y z : α} (h : y ≤ z) : roundHalfEven y ≤ roundHalfEven z := by
  have hf : Int.floor y ≤ Int.floor z := Int.floor_mono h
  rcases lt_or_eq_of_le hf with hlt | heq
  · have h1 := roundHalfEven_le_floor_add_one y
    have h2 := floor_le_roundHalfEven z
    omega
  · unfold roundHalfEven
    rw [← heq]
    have hr : y - (Int.floor y : α) ≤ z - (Int.floor y : α) := by linarith
    split_ifs <;> first | omega | linarith

theorem round2_zero : round2 0 = 0 := by
  unfold round2
  rw [zero_mul, roundHalfEven_zero]
  norm_num

theorem round2R_zero : round2R 0 = 0 := by
  unfold round2R
  rw [zero_mul, roundHalfEven_zero]
  norm_num

theorem round2_mono {x y : ℚ} (h : x ≤ y) : round2 x ≤ round2 y := by
  unfold round2
  have h1 : roundHalfEven (x * 100) ≤ roundHalfEven (y * 100) :=
    roundHalfEven_mono (by linarith)
  have h2 : ((roundHalfEven (x * 100) : ℤ) : ℚ) ≤ ((roundHalfEven (y * 100) : ℤ) : ℚ) := by
    exact_mod_cast h1
  linarith

theorem causasEvento_ne_nil (zc za zg : ℚ) : causasEvento zc za zg ≠ [] := by
  unfold causasEvento
  split_ifs <;> simp_all

/-- The inline `scores_hist` expression of the source computes, for every
historical row, exactly the weighted combination of `score_robusto`
values that the candidate itself receives. -/
theorem scores_hist_eq_map (contexto : List Reading) :
    scores_hist contexto =
      contexto.map (fun r => score_raw_evento contexto r.consumo_kwh r.agua_litros r.co2_kg) := by
  unfold scores_hist score_raw_evento score_robusto
  refine List.map_congr_left ?_
  intro r _
  unfold median
  ring

/-- On a sufficient context the event evaluator returns the fully
populated dictionary, with every field expressed through the named
pieces of the pipeline. -/
theorem detectar_evento_suficiente (df_ref : List Reading) (ts : String) (hora : ℤ)
    (c a g : ℚ) (h : 50 ≤ (contextoDe df_ref hora).length) :
    detectar_anomalia_evento df_ref ts hora c a g =
      ⟨some ts,
        some (nivelEvento (percentilEvento (contextoDe df_ref hora)
          (score_raw_evento (contextoDe df_ref hora) c a g))),
        some (round2 (percentilEvento (contextoDe df_ref hora)
          (score_raw_evento (contextoDe df_ref hora) c a g) * 100)),
        some (score_raw_evento (contextoDe df_ref hora) c a g),
        some (causasEvento
          (score_robusto c ((contextoDe df_ref hora).map (fun r => r.consumo_kwh)))
          (score_robusto a ((contextoDe df_ref hora).map (fun r => r.agua_litros)))
          (score_robusto g ((contextoDe df_ref hora).map (fun r => r.co2_kg)))),
        none⟩ := by
  unfold detectar_anomalia_evento score_raw_evento
  rw [if_neg (by omega)]

/-- A `None` candidate value makes `score_robusto` raise a `TypeError`. -/
theorem score_robustoPy_none (serie : List ℚ) :
    score_robustoPy .pynone serie = .error "TypeError: unsupported operand type(s) for -" := rfl

/-- A NaN candidate value propagates through `score_robusto`. -/
theorem score_robustoPy_nan (serie : List ℚ) :
    score_robustoPy (.float .nan) serie = .ok .nan := rfl

/-- On a numeric candidate value the dynamically-typed `score_robusto`
agrees with the exact one. -/
theorem score_robustoPy_num (v : ℚ) (serie : List ℚ) :
    score_robustoPy (.float (.num v)) serie = .ok (.num (score_robusto v serie)) := rfl

/-- No element of a numeric series is `<` NaN. -/
theorem countP_lt_nan (l : List ℚ) :
    (l.countP (fun s => (PyFloat.num s).lt .nan)) = 0 :=
  List.countP_eq_zero.mpr (by intro a _; simp [PyFloat.lt_nan])

/-- The batch z-score of a signal whose hour-group IQR is zero is NaN:
the source replaces the zero IQR by NaN before adding the ε. -/
theorem zBatch_iqr_zero (df : List Reading) (sel : Reading → ℚ) (row : Reading)
    (hiqr : quantile ((grupoHora df row.hora).map sel) (3/4) -
      quantile ((grupoHora df row.hora).map sel) (1/4) = 0) :
    zBatch df sel row = PyFloat.nan := by
  simp only [zBatch]
  rw [if_pos hiqr]
  simp [PyFloat.nan_add, PyFloat.div_nan]

/-- The event-path z-score of a signal whose context IQR is zero is the
large finite number `|v - median| * 10^6`. -/
theorem score_robusto_iqr_zero (v : ℚ) (serie : List ℚ)
    (hiqr : quantile serie (3/4) - quantile serie (1/4) = 0) :
    score_robusto v serie = |v - median serie| * 1000000 := by
  simp only [score_robusto]
  rw [hiqr]
  rw [show ((0 : ℚ) + 1e-6) = (1000000 : ℚ)⁻¹ by norm_num]
  rw [div_inv_eq_mul]

/-! ## Claim theorems -/

/-- Claim C1: for every candidate reading and every context of at least 50
historical readings with the candidate hour, the event evaluator
computes, per signal, `deviation = |v - median| / (Q75 - Q25 + 1e-6)`,
combines them as `raw_score = 0.40*dev_energy + 0.35*dev_water +
0.25*dev_co2`, and reports `score = log1p(raw_score)` (rounded to two
decimals in the returned dict); `raw_score = 0` yields score `0`, never
minus infinity. -/
theorem evento_score_es_log1p_de_score_raw
    (df_ref : List Reading) (ts : String) (hora : ℤ) (c a g : ℚ)
    (h : 50 ≤ (contextoDe df_ref hora).length) :
    (detectar_anomalia_evento df_ref ts hora c a g).score_raw =
      some (raw_scoreSpec (contextoDe df_ref hora) c a g) ∧
    (detectar_anomalia_evento df_ref ts hora c a g).score =
      some (round2R (Real.log (1 + ((raw_scoreSpec (contextoDe df_ref hora) c a g : ℚ) : ℝ)))) ∧
    (raw_scoreSpec (contextoDe df_ref hora) c a g = 0 →
      (detectar_anomalia_evento df_ref ts hora c a g).score = some 0) := by
  have hr : score_raw_evento (contextoDe df_ref hora) c a g =
      raw_scoreSpec (contextoDe df_ref hora) c a g := by
    simp only [score_raw_evento, raw_scoreSpec, deviationSpec, score_robusto]
    norm_num
  rw [detectar_evento_suficiente df_ref ts hora c a g h]
  refine ⟨by rw [← hr], ?_, ?_⟩
  · simp [ResultDict.score, hr]
  · intro h0
    simp [ResultDict.score, hr, h0, Real.log_one, round2R_zero]

/-- Witness for C1: on a 50-row context whose readings all equal the
candidate, every deviation is zero, `raw_score = 0` and the reported
score is exactly `0`. -/
theorem evento_score_es_log1p_de_score_raw_witness :
    50 ≤ (contextoDe dfRef50 12).length ∧
    raw_scoreSpec (contextoDe dfRef50 12) 5 7 9 = 0 ∧
    (detectar_anomalia_evento dfRef50 "2025-06-24 12:00" 12 5 7 9).score = some 0 := by
  refine ⟨by with_unfolding_all decide, by with_unfolding_all decide, ?_⟩
  exact (evento_score_es_log1p_de_score_raw dfRef50 "2025-06-24 12:00" 12 5 7 9
    (by with_unfolding_all decide)).2.2 (by with_unfolding_all decide)

/-- Claim C2: the severity tier is the same pure function of the
percentile in the batch path (`clasificar_anomalia`) and in the event
path (`nivelEvento`): below 0.90 Normal, from 0.90 up to but excluding
0.97 Alert, at or above 0.97 Critical. -/
theorem clasificacion_misma_funcion_en_ambas_rutas (p : ℚ) :
    clasificar_anomalia (some ((p : ℝ))) = nivelEvento p ∧
    (nivelEvento p = "Normal" ↔ p < 0.90) ∧
    (nivelEvento p = "Alerta" ↔ 0.90 ≤ p ∧ p < 0.97) ∧
    (nivelEvento p = "Crítica" ↔ 0.97 ≤ p) := by
  have e1 : ((p : ℝ) < 0.90) ↔ p < 0.90 := by
    rw [show (0.90 : ℝ) = ((0.90 : ℚ) : ℝ) by norm_num]
    exact Rat.cast_lt
  have e2 : ((p : ℝ) < 0.97) ↔ p < 0.97 := by
    rw [show (0.97 : ℝ) = ((0.97 : ℚ) : ℝ) by norm_num]
    exact Rat.cast_lt
  by_cases h1 : p < 0.90
  · have hn : nivelEvento p = "Normal" := by simp [nivelEvento, h1]
    have hc : clasificar_anomalia (some ((p : ℝ))) = "Normal" := by
      simp [clasificar_anomalia, pyLtO, e1.mpr h1]
    refine ⟨hc.trans hn.symm, ?_, ?_, ?_⟩
    · simp [hn, h1]
    · rw [hn]
      constructor
      · intro hx; exact absurd hx (by simp)
      · rintro ⟨hge, -⟩; exfalso; linarith
    · rw [hn]
      constructor
      · intro hx; exact absurd hx (by simp)
      · intro hge; exfalso; linarith
  · by_cases h2 : p < 0.97
    · have hn : nivelEvento p = "Alerta" := by simp [nivelEvento, h1, h2]
      have hc : clasificar_anomalia (some ((p : ℝ))) = "Alerta" := by
        simp [clasificar_anomalia, pyLtO, e1, e2, h1, h2]
      refine ⟨hc.trans hn.symm, ?_, ?_, ?_⟩
      · rw [hn]
        constructor
        · intro hx; exact absurd hx (by simp)
        · intro hx; exact absurd hx h1
      · simp [hn, not_lt.mp h1, h2]
      · rw [hn]
        constructor
        · intro hx; exact absurd hx (by simp)
        · intro hge; exfalso; linarith
    · have hn : nivelEvento p = "Crítica" := by simp [nivelEvento, h1, h2]
      have hc : clasificar_anomalia (some ((p : ℝ))) = "Crítica" := by
        simp [clasificar_anomalia, pyLtO, e1, e2, h1, h2]
      refine ⟨hc.trans hn.symm, ?_, ?_, ?_⟩
      · rw [hn]
        constructor
        · intro hx; exact absurd hx (by simp)
        · intro hx; exact absurd hx h1
      · rw [hn]
        constructor
        · intro hx; exact absurd hx (by simp)
        · rintro ⟨-, hx⟩; exact absurd hx h2
      · simp [hn, not_lt.mp h2]

/-- Claim C3: for every candidate with a sufficient context, the event
path percentile is the fraction of historical readings of the context
whose raw (pre-log) weighted score — computed with the same formula over
the same context — is strictly smaller than the candidate raw score;
the returned dict carries it rounded on a 0–100 scale. -/
theorem percentil_evento_es_fraccion_estricta
    (df_ref : List Reading) (ts : String) (hora : ℤ) (c a g : ℚ)
    (h : 50 ≤ (contextoDe df_ref hora).length) :
    percentilEvento (contextoDe df_ref hora) (score_raw_evento (contextoDe df_ref hora) c a g) =
      (((contextoDe df_ref hora).countP (fun r =>
          decide (score_raw_evento (contextoDe df_ref hora) r.consumo_kwh r.agua_litros r.co2_kg <
            score_raw_evento (contextoDe df_ref hora) c a g)) : ℕ) : ℚ) /
        (((contextoDe df_ref hora).length : ℕ) : ℚ) ∧
    (detectar_anomalia_evento df_ref ts hora c a g).percentil =
      some (round2 (percentilEvento (contextoDe df_ref hora)
        (score_raw_evento (contextoDe df_ref hora) c a g) * 100)) := by
  constructor
  · unfold percentilEvento
    rw [scores_hist_eq_map, List.countP_map, List.length_map]
    rfl
  · rw [detectar_evento_suficiente df_ref ts hora c a g h]

/-- Witness for C3 on a concrete 50-row context. -/
theorem percentil_evento_es_fraccion_estricta_witness :
    50 ≤ (contextoDe dfRef50 12).length ∧
    (detectar_anomalia_evento dfRef50 "t" 12 6 7 9).percentil =
      some (round2 (percentilEvento (contextoDe dfRef50 12)
        (score_raw_evento (contextoDe dfRef50 12) 6 7 9) * 100)) :=
  ⟨by with_unfolding_all decide,
    (percentil_evento_es_fraccion_estricta dfRef50 "t" 12 6 7 9
      (by with_unfolding_all decide)).2⟩

/-- Claim C4: below 50 qualifying historical rows the event evaluator
returns the insufficient-data dictionary (tier Normal plus an
explanatory note, no exception — also under dynamically-typed inputs);
from 50 rows on it returns a full classification: timestamp, tier,
percentile rounded to two decimals on a 0–100 scale, score rounded to
two decimals, and a non-empty list of causes. -/
theorem evento_frontera_50_contexto (df_ref : List Reading) (ts : String) (hora : ℤ) :
    (∀ c a g : ℚ, (contextoDe df_ref hora).length < 50 →
      detectar_anomalia_evento df_ref ts hora c a g =
        ⟨none, some "Normal", none, none, none,
          some "No hay suficientes datos históricos para evaluar anomalías."⟩) ∧
    (∀ v1 v2 v3 : PyVal, (contextoDe df_ref hora).length < 50 →
      detectar_anomalia_eventoPy df_ref ts hora v1 v2 v3 =
        .ok ⟨none, some "Normal", none, none, none,
          some "No hay suficientes datos históricos para evaluar anomalías."⟩) ∧
    (∀ c a g : ℚ, 50 ≤ (contextoDe df_ref hora).length →
      detectar_anomalia_evento df_ref ts hora c a g =
        ⟨some ts,
          some (nivelEvento (percentilEvento (contextoDe df_ref hora)
            (score_raw_evento (contextoDe df_ref hora) c a g))),
          some (round2 (percentilEvento (contextoDe df_ref hora)
            (score_raw_evento (contextoDe df_ref hora) c a g) * 100)),
          some (score_raw_evento (contextoDe df_ref hora) c a g),
          some (causasEvento
            (score_robusto c ((contextoDe df_ref hora).map (fun r => r.consumo_kwh)))
            (score_robusto a ((contextoDe df_ref hora).map (fun r => r.agua_litros)))
            (score_robusto g ((contextoDe df_ref hora).map (fun r => r.co2_kg)))),
          none⟩ ∧
      causasEvento
        (score_robusto c ((contextoDe df_ref hora).map (fun r => r.consumo_kwh)))
        (score_robusto a ((contextoDe df_ref hora).map (fun r => r.agua_litros)))
        (score_robusto g ((contextoDe df_ref hora).map (fun r => r.co2_kg))) ≠ [] ∧
      (detectar_anomalia_evento df_ref ts hora c a g).score =
        some (round2R (Real.log
          (1 + ((score_raw_evento (contextoDe df_ref hora) c a g : ℚ) : ℝ))))) := by
  refine ⟨?_, ?_, ?_⟩
  · intro c a g h
    unfold detectar_anomalia_evento
    rw [if_pos h]
  · intro v1 v2 v3 h
    unfold detectar_anomalia_eventoPy
    rw [if_pos h]
  · intro c a g h
    refine ⟨detectar_evento_suficiente df_ref ts hora c a g h,
      causasEvento_ne_nil _ _ _, ?_⟩
    rw [detectar_evento_suficiente df_ref ts hora c a g h]
    simp [ResultDict.score]

/-- Witness for C4: 49 identical rows trigger the insufficient-data
dictionary (in both typings); the 50-row fixture yields the full
classification. -/
theorem evento_frontera_50_contexto_witness :
    (contextoDe dfRef49 12).length = 49 ∧
    detectar_anomalia_evento dfRef49 "t" 12 5 7 9 =
      ⟨none, some "Normal", none, none, none,
        some "No hay suficientes datos históricos para evaluar anomalías."⟩ ∧
    detectar_anomalia_eventoPy dfRef49 "t" 12 (.float (.num 5)) .pynone (.float .nan) =
      .ok ⟨none, some "Normal", none, none, none,
        some "No hay suficientes datos históricos para evaluar anomalías."⟩ ∧
    (contextoDe dfRef50 12).length = 50 ∧
    detectar_anomalia_evento dfRef50 "t" 12 6 7 9 =
      ⟨some "t",
        some (nivelEvento (percentilEvento (contextoDe dfRef50 12)
          (score_raw_evento (contextoDe dfRef50 12) 6 7 9))),
        some (round2 (percentilEvento (contextoDe dfRef50 12)
          (score_raw_evento (contextoDe dfRef50 12) 6 7 9) * 100)),
        some (score_raw_evento (contextoDe dfRef50 12) 6 7 9),
        some (causasEvento
          (score_robusto 6 ((contextoDe dfRef50 12).map (fun r => r.consumo_kwh)))
          (score_robusto 7 ((contextoDe dfRef50 12).map (fun r => r.agua_litros)))
          (score_robusto 9 ((contextoDe dfRef50 12).map (fun r => r.co2_kg)))),
        none⟩ := by
  refine ⟨by with_unfolding_all decide,
    (evento_frontera_50_contexto dfRef49 "t" 12).1 5 7 9 (by with_unfolding_all decide),
    (evento_frontera_50_contexto dfRef49 "t" 12).2.1 (.float (.num 5)) .pynone (.float .nan)
      (by with_unfolding_all decide),
    by with_unfolding_all decide,
    ((evento_frontera_50_contexto dfRef50 "t" 12).2.2 6 7 9
      (by with_unfolding_all decide)).1⟩

theorem bindE_error {ε α β : Type} (e : ε) (f : α → Except ε β) :
    (Except.error e : Except ε α) >>= f = .error e := rfl

theorem bindE_ok {ε α β : Type} (a : α) (f : α → Except ε β) :
    (Except.ok a : Except ε α) >>= f = f a := rfl

theorem mapE_error {ε α β : Type} (e : ε) (f : α → β) :
    f <$> (Except.error e : Except ε α) = .error e := rfl

theorem mapE_ok {ε α β : Type} (a : α) (f : α → β) :
    f <$> (Except.ok a : Except ε α) = .ok (f a) := rfl

/-- Counterexample to claim C5: a candidate whose energy signal is the
NaN sentinel is not rejected — the evaluator returns a successful
`Normal` result with percentile `0`, silently carrying the NaN through
the scoring pipeline (the raw score of the returned dict is NaN). -/
theorem evento_nan_devuelve_ok_counterexample :
    detectar_anomalia_eventoPy dfRef50 "2025-06-24 12:00" 12
      (.float .nan) (.float (.num 7)) (.float (.num 9)) =
      .ok ⟨some "2025-06-24 12:00", some "Normal", some 0, some PyFloat.nan,
        some ["comportamiento combinado atípico"], none⟩ := by
  with_unfolding_all decide

/-- Amended claim C5: a missing (`None`) candidate signal raises a
`TypeError` from the subtraction inside `score_robusto` — an exception,
though an incidental one, not a validation — while a NaN candidate
signal is propagated silently: every comparison against it is false, so
the evaluator returns tier `Normal` with percentile `0` and NaN as the
raw score instead of failing fast. -/
theorem evento_entrada_invalida_amended (df_ref : List Reading) (ts : String) (hora : ℤ)
    (h : 50 ≤ (contextoDe df_ref hora).length) :
    (∀ v2 v3 : PyVal, detectar_anomalia_eventoPy df_ref ts hora .pynone v2 v3 =
      .error "TypeError: unsupported operand type(s) for -") ∧
    (∀ (c : ℚ) (v3 : PyVal),
      detectar_anomalia_eventoPy df_ref ts hora (.float (.num c)) .pynone v3 =
        .error "TypeError: unsupported operand type(s) for -") ∧
    (∀ c a : ℚ,
      detectar_anomalia_eventoPy df_ref ts hora (.float (.num c)) (.float (.num a)) .pynone =
        .error "TypeError: unsupported operand type(s) for -") ∧
    (∀ a g : ℚ,
      detectar_anomalia_eventoPy df_ref ts hora
        (.float .nan) (.float (.num a)) (.float (.num g)) =
        .ok ⟨some ts, some "Normal", some 0, some PyFloat.nan,
          some (causasEventoPy .nan
            (.num (score_robusto a ((contextoDe df_ref hora).map (fun r => r.agua_litros))))
            (.num (score_robusto g ((contextoDe df_ref hora).map (fun r => r.co2_kg))))),
          none⟩) := by
  have hif : ¬ (contextoDe df_ref hora).length < 50 := by omega
  have hniv : nivelEvento 0 = "Normal" := by norm_num [nivelEvento]
  refine ⟨?_, ?_, ?_, ?_⟩
  · intro v2 v3
    unfold detectar_anomalia_eventoPy
    rw [if_neg hif]
    rw [score_robustoPy_none]
    simp only [bindE_error]
  · intro c v3
    unfold detectar_anomalia_eventoPy
    rw [if_neg hif]
    rw [score_robustoPy_num, score_robustoPy_none]
    simp only [bindE_ok, bindE_error]
  · intro c a
    unfold detectar_anomalia_eventoPy
    rw [if_neg hif]
    rw [score_robustoPy_num, score_robustoPy_num, score_robustoPy_none]
    simp only [bindE_ok, bindE_error]
  · intro a g
    unfold detectar_anomalia_eventoPy
    rw [if_neg hif]
    rw [score_robustoPy_nan, score_robustoPy_num, score_robustoPy_num]
    simp only [bindE_ok]
    have hraw : (((PyFloat.num 0.4).mul .nan).add
        ((PyFloat.num 0.35).mul
          (.num (score_robusto a ((contextoDe df_ref hora).map (fun r => r.agua_litros)))))).add
        ((PyFloat.num 0.25).mul
          (.num (score_robusto g ((contextoDe df_ref hora).map (fun r => r.co2_kg))))) =
        PyFloat.nan := by
      simp [PyFloat.num_mul_nan, PyFloat.nan_add, PyFloat.mul]
    rw [hraw]
    simp only [countP_lt_nan, Nat.cast_zero, zero_div, zero_mul, round2_zero, hniv]
    rfl

/-- Witness for the amended claim C5 on the 50-row fixture. -/
theorem evento_entrada_invalida_amended_witness :
    50 ≤ (contextoDe dfRef50 12).length ∧
    detectar_anomalia_eventoPy dfRef50 "t" 12 .pynone (.float (.num 7)) (.float (.num 9)) =
      .error "TypeError: unsupported operand type(s) for -" ∧
    detectar_anomalia_eventoPy dfRef50 "t" 12 (.float (.num 5)) .pynone (.float (.num 9)) =
      .error "TypeError: unsupported operand type(s) for -" ∧
    detectar_anomalia_eventoPy dfRef50 "t" 12 (.float (.num 5)) (.float (.num 7)) .pynone =
      .error "TypeError: unsupported operand type(s) for -" ∧
    detectar_anomalia_eventoPy dfRef50 "t" 12 (.float .nan) (.float (.num 7)) (.float (.num 9)) =
      .ok ⟨some "t", some "Normal", some 0, some PyFloat.nan,
        some (causasEventoPy .nan
          (.num (score_robusto 7 ((contextoDe dfRef50 12).map (fun r => r.agua_litros))))
          (.num (score_robusto 9 ((contextoDe dfRef50 12).map (fun r => r.co2_kg))))),
        none⟩ := by
  have h : 50 ≤ (contextoDe dfRef50 12).length := by with_unfolding_all decide
  exact ⟨h,
    (evento_entrada_invalida_amended dfRef50 "t" 12 h).1 (.float (.num 7)) (.float (.num 9)),
    (evento_entrada_invalida_amended dfRef50 "t" 12 h).2.1 5 (.float (.num 9)),
    (evento_entrada_invalida_amended dfRef50 "t" 12 h).2.2.1 5 7,
    (evento_entrada_invalida_amended dfRef50 "t" 12 h).2.2.2 7 9⟩

/-- Counterexample to claim C6: in the batch path a signal population
with IQR 0 does not get the large finite ε-guarded deviation — the zero
IQR is replaced by NaN before the ε is added, so the z-score of a row
whose value differs from the group median is NaN. -/
theorem iqr_cero_batch_nan_counterexample :
    quantile ((grupoHora dfIqr0 3).map (fun r => r.consumo_kwh)) (3/4) -
      quantile ((grupoHora dfIqr0 3).map (fun r => r.consumo_kwh)) (1/4) = 0 ∧
    rowIqr0 ∈ dfIqr0 ∧
    rowIqr0.consumo_kwh ≠ median ((grupoHora dfIqr0 3).map (fun r => r.consumo_kwh)) ∧
    zBatch dfIqr0 (fun r => r.consumo_kwh) rowIqr0 = PyFloat.nan := by
  with_unfolding_all decide

/-- Amended claim C6: in the event path an IQR of 0 is absorbed by the ε
guard — the deviation is the large finite number `|v - median| * 10^6`,
positive whenever the value differs from the median, and no error is
surfaced; in the batch path the zero IQR is first replaced by NaN, so
the deviation is NaN rather than a large finite number (also without
error). -/
theorem iqr_cero_guardia_epsilon_amended :
    (∀ (v : ℚ) (serie : List ℚ),
      quantile serie (3/4) - quantile serie (1/4) = 0 →
        score_robusto v serie = |v - median serie| * 1000000 ∧
        (v ≠ median serie → 0 < score_robusto v serie)) ∧
    (∀ (df : List Reading) (sel : Reading → ℚ) (row : Reading),
      quantile ((grupoHora df row.hora).map sel) (3/4) -
        quantile ((grupoHora df row.hora).map sel) (1/4) = 0 →
        zBatch df sel row = PyFloat.nan) := by
  constructor
  · intro v serie hiqr
    have he := score_robusto_iqr_zero v serie hiqr
    refine ⟨he, fun hne => ?_⟩
    rw [he]
    exact mul_pos (abs_pos.mpr (sub_ne_zero.mpr hne)) (by norm_num)
  · intro df sel row hiqr
    exact zBatch_iqr_zero df sel row hiqr

/-- Witness for the amended claim C6: a flat 50-element series on the
event side, and the `dfIqr0` fixture on the batch side. -/
theorem iqr_cero_guardia_epsilon_amended_witness :
    quantile (List.replicate 50 (5 : ℚ)) (3/4) -
      quantile (List.replicate 50 (5 : ℚ)) (1/4) = 0 ∧
    score_robusto 7 (List.replicate 50 (5 : ℚ)) =
      |(7 : ℚ) - median (List.replicate 50 (5 : ℚ))| * 1000000 ∧
    0 < score_robusto 7 (List.replicate 50 (5 : ℚ)) ∧
    zBatch dfIqr0 (fun r => r.consumo_kwh) rowIqr0 = PyFloat.nan := by
  have h1 : quantile (List.replicate 50 (5 : ℚ)) (3/4) -
      quantile (List.replicate 50 (5 : ℚ)) (1/4) = 0 := by with_unfolding_all decide
  have h2 : quantile ((grupoHora dfIqr0 rowIqr0.hora).map (fun r => r.consumo_kwh)) (3/4) -
      quantile ((grupoHora dfIqr0 rowIqr0.hora).map (fun r => r.consumo_kwh)) (1/4) = 0 := by
    with_unfolding_all decide
  exact ⟨h1,
    (iqr_cero_guardia_epsilon_amended.1 7 (List.replicate 50 (5 : ℚ)) h1).1,
    (iqr_cero_guardia_epsilon_amended.1 7 (List.replicate 50 (5 : ℚ)) h1).2
      (by with_unfolding_all decide),
    iqr_cero_guardia_epsilon_amended.2 dfIqr0 (fun r => r.consumo_kwh) rowIqr0 h2⟩

/-- Claim C7: on a sufficient context a signal is attributed as a cause
exactly when its deviation exceeds 3; if only the energy deviation
exceeds 3 the causes list is exactly the energy string, and if no
deviation exceeds 3 it is exactly the combined-behaviour string. -/
theorem causas_umbral_tres
    (df_ref : List Reading) (ts : String) (hora : ℤ) (c a g : ℚ)
    (h : 50 ≤ (contextoDe df_ref hora).length) :
    (detectar_anomalia_evento df_ref ts hora c a g).explicacion =
      some (causasEvento
        (score_robusto c ((contextoDe df_ref hora).map (fun r => r.consumo_kwh)))
        (score_robusto a ((contextoDe df_ref hora).map (fun r => r.agua_litros)))
        (score_robusto g ((contextoDe df_ref hora).map (fun r => r.co2_kg)))) ∧
    (∀ zc za zg : ℚ,
      (3 < zc → za ≤ 3 → zg ≤ 3 →
        causasEvento zc za zg = ["consumo energético inusualmente alto"]) ∧
      (zc ≤ 3 → za ≤ 3 → zg ≤ 3 →
        causasEvento zc za zg = ["comportamiento combinado atípico"]) ∧
      ((3 < zc ∨ 3 < za ∨ 3 < zg) →
        (("consumo energético inusualmente alto" ∈ causasEvento zc za zg) ↔ 3 < zc) ∧
        (("consumo de agua fuera de lo normal" ∈ causasEvento zc za zg) ↔ 3 < za) ∧
        (("emisiones de CO₂ elevadas" ∈ causasEvento zc za zg) ↔ 3 < zg) ∧
        "comportamiento combinado atípico" ∉ causasEvento zc za zg)) := by
  constructor
  · rw [detectar_evento_suficiente df_ref ts hora c a g h]
  · intro zc za zg
    refine ⟨?_, ?_, ?_⟩
    · intro h1 h2 h3
      simp [causasEvento, h1, not_lt.mpr h2, not_lt.mpr h3]
    · intro h1 h2 h3
      simp [causasEvento, not_lt.mpr h1, not_lt.mpr h2, not_lt.mpr h3]
    · intro hor
      by_cases h1 : 3 < zc <;> by_cases h2 : 3 < za <;> by_cases h3 : 3 < zg <;>
        simp_all [causasEvento]

/-- Witness for C7: on the flat 50-row fixture, a candidate whose only
deviating signal is energy gets exactly the energy cause. -/
theorem causas_umbral_tres_witness :
    50 ≤ (contextoDe dfRef50 12).length ∧
    (detectar_anomalia_evento dfRef50 "t" 12 6 7 9).explicacion =
      some (causasEvento
        (score_robusto 6 ((contextoDe dfRef50 12).map (fun r => r.consumo_kwh)))
        (score_robusto 7 ((contextoDe dfRef50 12).map (fun r => r.agua_litros)))
        (score_robusto 9 ((contextoDe dfRef50 12).map (fun r => r.co2_kg)))) ∧
    (detectar_anomalia_evento dfRef50 "t" 12 6 7 9).explicacion =
      some ["consumo energético inusualmente alto"] := by
  have h : 50 ≤ (contextoDe dfRef50 12).length := by with_unfolding_all decide
  refine ⟨h, (causas_umbral_tres dfRef50 "t" 12 6 7 9 h).1, ?_⟩
  rw [(causas_umbral_tres dfRef50 "t" 12 6 7 9 h).1]
  rw [((causas_umbral_tres dfRef50 "t" 12 6 7 9 h).2 _ _ _).1
    (by with_unfolding_all decide) (by with_unfolding_all decide)
    (by with_unfolding_all decide)]

/-- Claim C8: holding the context fixed (at least 50 qualifying rows), a
candidate with a strictly larger raw score gets a percentile at least as
large — both before and after the 2-decimal rounding of the returned
dict. -/
theorem percentil_monotono_en_score_raw
    (df_ref : List Reading) (ts : String) (hora : ℤ)
    (cA aA gA cB aB gB : ℚ)
    (h : 50 ≤ (contextoDe df_ref hora).length)
    (hlt : score_raw_evento (contextoDe df_ref hora) cB aB gB <
      score_raw_evento (contextoDe df_ref hora) cA aA gA) :
    percentilEvento (contextoDe df_ref hora)
        (score_raw_evento (contextoDe df_ref hora) cB aB gB) ≤
      percentilEvento (contextoDe df_ref hora)
        (score_raw_evento (contextoDe df_ref hora) cA aA gA) ∧
    (detectar_anomalia_evento df_ref ts hora cB aB gB).percentil =
      some (round2 (percentilEvento (contextoDe df_ref hora)
        (score_raw_evento (contextoDe df_ref hora) cB aB gB) * 100)) ∧
    (detectar_anomalia_evento df_ref ts hora cA aA gA).percentil =
      some (round2 (percentilEvento (contextoDe df_ref hora)
        (score_raw_evento (contextoDe df_ref hora) cA aA gA) * 100)) ∧
    round2 (percentilEvento (contextoDe df_ref hora)
        (score_raw_evento (contextoDe df_ref hora) cB aB gB) * 100) ≤
      round2 (percentilEvento (contextoDe df_ref hora)
        (score_raw_evento (contextoDe df_ref hora) cA aA gA) * 100) := by
  have hcount : (scores_hist (contextoDe df_ref hora)).countP
      (fun s => decide (s < score_raw_evento (contextoDe df_ref hora) cB aB gB)) ≤
      (scores_hist (contextoDe df_ref hora)).countP
        (fun s => decide (s < score_raw_evento (contextoDe df_ref hora) cA aA gA)) := by
    apply List.countP_mono_left
    intro x _ hx
    simp only [decide_eq_true_eq] at hx ⊢
    linarith
  have hmain : percentilEvento (contextoDe df_ref hora)
      (score_raw_evento (contextoDe df_ref hora) cB aB gB) ≤
      percentilEvento (contextoDe df_ref hora)
        (score_raw_evento (contextoDe df_ref hora) cA aA gA) := by
    unfold percentilEvento
    have hc : ((((scores_hist (contextoDe df_ref hora)).countP
        (fun s => decide (s < score_raw_evento (contextoDe df_ref hora) cB aB gB))) : ℕ) : ℚ) ≤
        ((((scores_hist (contextoDe df_ref hora)).countP
          (fun s => decide (s < score_raw_evento (contextoDe df_ref hora) cA aA gA))) : ℕ) : ℚ) := by
      exact_mod_cast hcount
    have hlen : (0 : ℚ) < (((scores_hist (contextoDe df_ref hora)).length : ℕ) : ℚ) := by
      have : 0 < (scores_hist (contextoDe df_ref hora)).length := by
        unfold scores_hist
        rw [List.length_map]
        omega
      exact_mod_cast this
    exact (div_le_div_iff_of_pos_right hlen).mpr hc
  refine ⟨hmain, ?_, ?_, ?_⟩
  · rw [detectar_evento_suficiente df_ref ts hora cB aB gB h]
  · rw [detectar_evento_suficiente df_ref ts hora cA aA gA h]
  · exact round2_mono (by nlinarith)

/-- Witness for C8: on the flat 50-row fixture the zero-deviation
candidate has a strictly smaller raw score than a deviating one, and its
percentile is no larger. -/
theorem percentil_monotono_en_score_raw_witness :
    50 ≤ (contextoDe dfRef50 12).length ∧
    score_raw_evento (contextoDe dfRef50 12) 5 7 9 <
      score_raw_evento (contextoDe dfRef50 12) 6 7 9 ∧
    percentilEvento (contextoDe dfRef50 12) (score_raw_evento (contextoDe dfRef50 12) 5 7 9) ≤
      percentilEvento (contextoDe dfRef50 12) (score_raw_evento (contextoDe dfRef50 12) 6 7 9) ∧
    round2 (percentilEvento (contextoDe dfRef50 12)
        (score_raw_evento (contextoDe dfRef50 12) 5 7 9) * 100) ≤
      round2 (percentilEvento (contextoDe dfRef50 12)
        (score_raw_evento (contextoDe dfRef50 12) 6 7 9) * 100) := by
  have h : 50 ≤ (contextoDe dfRef50 12).length := by with_unfolding_all decide
  have hlt : score_raw_evento (contextoDe dfRef50 12) 5 7 9 <
      score_raw_evento (contextoDe dfRef50 12) 6 7 9 := by with_unfolding_all decide
  exact ⟨h, hlt,
    (percentil_monotono_en_score_raw dfRef50 "t" 12 6 7 9 5 7 9 h hlt).1,
    (percentil_monotono_en_score_raw dfRef50 "t" 12 6 7 9 5 7 9 h hlt).2.2.2⟩

/-- Claim C9: the insufficient-data result carries only the `nivel` and
`mensaje` keys — `timestamp`, `percentil`, `score` and `explicacion` are
absent — and feeding it to the chatbot formatter raises a `KeyError`,
because the Normal-tier message interpolates the missing `timestamp`:
the formatter is not total over the evaluator outputs. -/
theorem resultado_insuficiente_rompe_chatbot
    (df_ref : List Reading) (ts : String) (hora : ℤ) (c a g : ℚ)
    (h : (contextoDe df_ref hora).length < 50) :
    (detectar_anomalia_evento df_ref ts hora c a g).timestamp = none ∧
    (detectar_anomalia_evento df_ref ts hora c a g).percentil = none ∧
    (detectar_anomalia_evento df_ref ts hora c a g).score_raw = none ∧
    (detectar_anomalia_evento df_ref ts hora c a g).score = none ∧
    (detectar_anomalia_evento df_ref ts hora c a g).explicacion = none ∧
    (detectar_anomalia_evento df_ref ts hora c a g).nivel = some "Normal" ∧
    (detectar_anomalia_evento df_ref ts hora c a g).mensaje =
      some "No hay suficientes datos históricos para evaluar anomalías." ∧
    respuesta_chatbot (detectar_anomalia_evento df_ref ts hora c a g) =
      .error "KeyError: timestamp" := by
  have he : detectar_anomalia_evento df_ref ts hora c a g =
      ⟨none, some "Normal", none, none, none,
        some "No hay suficientes datos históricos para evaluar anomalías."⟩ := by
    unfold detectar_anomalia_evento
    rw [if_pos h]
  rw [he]
  refine ⟨rfl, rfl, rfl, ?_, rfl, rfl, rfl, ?_⟩
  · simp [ResultDict.score]
  · rfl

/-- Witness for C9: an empty reference table. -/
theorem resultado_insuficiente_rompe_chatbot_witness :
    (contextoDe ([] : List Reading) 12).length < 50 ∧
    respuesta_chatbot (detectar_anomalia_evento [] "t" 12 5 7 9) =
      .error "KeyError: timestamp" ∧
    (detectar_anomalia_evento [] "t" 12 5 7 9).timestamp = none := by
  have h : (contextoDe ([] : List Reading) 12).length < 50 := by with_unfolding_all decide
  exact ⟨h,
    (resultado_insuficiente_rompe_chatbot [] "t" 12 5 7 9 h).2.2.2.2.2.2.2,
    (resultado_insuficiente_rompe_chatbot [] "t" 12 5 7 9 h).1⟩

/-- Claim C10: in the batch path, a row of an hour group whose IQR is 0
for one of the three signals gets a NaN z-score for that signal, a NaN
composite raw score, a NaN log score and a NaN percentile (pandas keeps
NaN ranks), and the tier classifier sends the NaN percentile to
`Crítica` since no comparison with NaN holds. -/
theorem batch_iqr_cero_nan_critica
    (df : List Reading) (row : Reading) (sel : Reading → ℚ)
    (hsel : sel = (fun r => r.consumo_kwh) ∨ sel = (fun r => r.agua_litros) ∨
      sel = (fun r => r.co2_kg))
    (hiqr : quantile ((grupoHora df row.hora).map sel) (3/4) -
      quantile ((grupoHora df row.hora).map sel) (1/4) = 0) :
    zBatch df sel row = PyFloat.nan ∧
    anomalia_score_raw df row = PyFloat.nan ∧
    anomalia_score df row = none ∧
    anomalia_percentil df row = none ∧
    nivel_anomalia df row = "Crítica" := by
  have hz : zBatch df sel row = PyFloat.nan := zBatch_iqr_zero df sel row hiqr
  have hraw : anomalia_score_raw df row = PyFloat.nan := by
    rcases hsel with rfl | rfl | rfl
    · unfold anomalia_score_raw
      rw [hz]
      simp [PyFloat.num_mul_nan, PyFloat.nan_add]
    · unfold anomalia_score_raw
      rw [hz]
      simp [PyFloat.num_mul_nan, PyFloat.nan_add, PyFloat.add_nan]
    · unfold anomalia_score_raw
      rw [hz]
      simp [PyFloat.num_mul_nan, PyFloat.add_nan]
  have hs : anomalia_score df row = none := by
    unfold anomalia_score
    rw [hraw]
    rfl
  have hp : anomalia_percentil df row = none := by
    unfold anomalia_percentil
    rw [hs]
    rfl
  have hn : nivel_anomalia df row = "Crítica" := by
    unfold nivel_anomalia
    rw [hp]
    rfl
  exact ⟨hz, hraw, hs, hp, hn⟩

/-- Witness for C10 on the `dfIqr0` fixture: the hour-3 energy group has
IQR 0 and its deviating row is classified `Crítica` with NaN score and
percentile. -/
theorem batch_iqr_cero_nan_critica_witness :
    quantile ((grupoHora dfIqr0 rowIqr0.hora).map (fun r => r.consumo_kwh)) (3/4) -
      quantile ((grupoHora dfIqr0 rowIqr0.hora).map (fun r => r.consumo_kwh)) (1/4) = 0 ∧
    anomalia_score_raw dfIqr0 rowIqr0 = PyFloat.nan ∧
    anomalia_percentil dfIqr0 rowIqr0 = none ∧
    nivel_anomalia dfIqr0 rowIqr0 = "Crítica" := by
  have h2 : quantile ((grupoHora dfIqr0 rowIqr0.hora).map (fun r => r.consumo_kwh)) (3/4) -
      quantile ((grupoHora dfIqr0 rowIqr0.hora).map (fun r => r.consumo_kwh)) (1/4) = 0 := by
    with_unfolding_all decide
  exact ⟨h2,
    (batch_iqr_cero_nan_critica dfIqr0 rowIqr0 _ (Or.inl rfl) h2).2.1,
    (batch_iqr_cero_nan_critica dfIqr0 rowIqr0 _ (Or.inl rfl) h2).2.2.2.1,
    (batch_iqr_cero_nan_critica dfIqr0 rowIqr0 _ (Or.inl rfl) h2).2.2.2.2⟩

end Anomalias
